import Mathlib

/-!
Shallow embedding of src/electron/services/whisper_transcribe.py.

The script is a linear sequence:
  the sys module is loaded, then the whisper module inside a try block;
  on ImportError: remediation message to stderr; sys.exit(1)
  if len(sys.argv) < 2: usage message to stderr; sys.exit(1)
  model = whisper.load_model("base")
  result = model.transcribe(sys.argv[1])
  print(result["text"])

The whisper capability is modelled as an optional module value (none when
the module is unavailable) whose load_model and transcribe are opaque functions
returning Except (they may raise).  Dictionary values are modelled by PyValue,
a transcription result by an association list of string keys to PyValue.  The
semantics of a run is a finite trace of events: writes to stdout and stderr,
the load_model and transcribe calls, explicit exits, and an uncaught raised
error.  The event alphabet also contains environment-variable reads and
persistent-state writes so that their absence in every run is a statable
property; the script performs neither, so runTrace never emits them.
Observables (stdout, stderr, exit status) are derived from the trace; an
uncaught raise terminates the process with status 1 and its diagnostic on
stderr, as the Python runtime does (the traceback text is modelled by its
final line, without the quoting Python adds around a KeyError key).
-/

/-- A Python value stored in a transcription-result dictionary.  The whisper
result holds the recognized text as a string; other fields may hold other
values.  Stringification follows print: a string prints as itself, an
integer as its decimal form. -/
inductive PyValue where
  | str : String → PyValue
  | int : Int → PyValue
deriving DecidableEq, Repr

/-- Stringification applied by print to the looked-up value. -/
def pyStr : PyValue → String
  | PyValue.str s => s
  | PyValue.int n => toString n

/-- A transcription result: a dictionary from field names to values,
modelled as an association list (first binding wins, as dict keys are
unique). -/
abbrev PyDict := List (String × PyValue)

/-- An uncaught Python error.  keyError arises from a failed dictionary
lookup; any error raised inside the capability is carried opaquely. -/
inductive PyError where
  | importError : String → PyError
  | keyError : String → PyError
  | runtimeError : String → PyError
deriving DecidableEq, Repr

/-- The model object returned by load_model: its transcribe method takes the
audio path and either returns a result dictionary or raises. -/
structure WhisperModel where
  transcribe : String → Except PyError PyDict

/-- The whisper module as the script consumes it: load_model takes a tier
label and either returns a model or raises. -/
structure WhisperModule where
  load_model : String → Except PyError WhisperModel

/-- One observable step of a run. -/
inductive Event where
  | outWrite : String → Event
  | errWrite : String → Event
  | envRead : String → Event
  | persistWrite : String → String → Event
  | loadModel : String → Event
  | transcribe : String → Event
  | exit : Nat → Event
  | raise : PyError → Event
deriving DecidableEq, Repr

/-- The remediation message printed when the whisper import fails
(print appends the newline separately). -/
def whisperMissingMsg : String :=
  "Whisper not installed. Please run: pip install openai-whisper"

/-- The usage message printed when no audio path argument is supplied. -/
def usageMsg : String :=
  "Usage: python whisper_transcribe.py <audio_path>"

/-- The diagnostic the runtime prints on stderr for an uncaught error,
modelled by the final line of the traceback. -/
def tracebackOf : PyError → String
  | PyError.importError m => "ImportError: " ++ m ++ "\n"
  | PyError.keyError k => "KeyError: " ++ k ++ "\n"
  | PyError.runtimeError m => "RuntimeError: " ++ m ++ "\n"

/-- The trace of one invocation of whisper_transcribe.py.  whisperMod is
none when the whisper import raises ImportError, some otherwise; argv is
sys.argv (head is the program name).  The script body in order: the import
guard, the argument-count guard (len(sys.argv) < 2), load_model("base"),
model.transcribe(sys.argv[1]), print(result["text"]).  The events following
the transcribe event are computed from the value returned by the blocking
call, so they occur only after it has returned. -/
def runTrace (whisperMod : Option WhisperModule) (argv : List String) :
    List Event :=
  match whisperMod with
  | none => [Event.errWrite (whisperMissingMsg ++ "\n"), Event.exit 1]
  | some whisper =>
    match argv with
    | _prog :: audioPath :: _rest =>
      Event.loadModel "base" ::
        match whisper.load_model "base" with
        | Except.error e => [Event.raise e]
        | Except.ok model =>
          Event.transcribe audioPath ::
            match model.transcribe audioPath with
            | Except.error e => [Event.raise e]
            | Except.ok result =>
              match result.lookup "text" with
              | none => [Event.raise (PyError.keyError "text")]
              | some v => [Event.outWrite (pyStr v ++ "\n")]
    | _ => [Event.errWrite (usageMsg ++ "\n"), Event.exit 1]

/-- Exit status derived from a trace: an explicit exit carries its code, an
uncaught raise terminates with status 1, and falling off the end of the
script terminates with status 0. -/
def exitCodeOf : List Event → Nat
  | [] => 0
  | Event.exit c :: _ => c
  | Event.raise _ :: _ => 1
  | _ :: rest => exitCodeOf rest

/-- Everything written to standard output during a run. -/
def stdoutOf : List Event → String
  | [] => ""
  | Event.outWrite s :: rest => s ++ stdoutOf rest
  | _ :: rest => stdoutOf rest

/-- Everything written to standard error during a run, an uncaught raise
contributing its diagnostic. -/
def stderrOf : List Event → String
  | [] => ""
  | Event.errWrite s :: rest => s ++ stderrOf rest
  | Event.raise e :: rest => tracebackOf e ++ stderrOf rest
  | _ :: rest => stderrOf rest

/-- True when no stdout write occurs before the transcribe call: scanning
the trace, an outWrite seen before the first transcribe event refutes it. -/
def stdoutSilentUntilTranscribe : List Event → Bool
  | [] => true
  | Event.outWrite _ :: _ => false
  | Event.transcribe _ :: _ => true
  | _ :: rest => stdoutSilentUntilTranscribe rest

/-- The tier labels passed to load_model during a run, in order. -/
def loadNamesOf (tr : List Event) : List String :=
  tr.filterMap fun e =>
    match e with
    | Event.loadModel n => some n
    | _ => none

/-- True for the events that touch ambient state outside the process:
reading an environment variable or writing persistent state. -/
def Event.touchesAmbientState : Event → Bool
  | Event.envRead _ => true
  | Event.persistWrite _ _ => true
  | _ => false

/-- A stub model whose transcription always succeeds with a result whose
text field is "hello world". -/
def stubModel : WhisperModel :=
  ⟨fun _ => Except.ok [("text", PyValue.str "hello world")]⟩

/-- A stub whisper module that always yields stubModel. -/
def stubWhisper : WhisperModule :=
  ⟨fun _ => Except.ok stubModel⟩

/-- A stub model whose transcription always raises an error. -/
def failingModel : WhisperModel :=
  ⟨fun _ => Except.error (PyError.runtimeError "unsupported format")⟩

/-- A stub whisper module whose transcription step raises. -/
def failingWhisper : WhisperModule :=
  ⟨fun _ => Except.ok failingModel⟩

/-- A stub model whose result has a text field plus a language field. -/
def richModelA : WhisperModel :=
  ⟨fun _ => Except.ok
    [("text", PyValue.str "hi"), ("language", PyValue.str "en")]⟩

/-- A stub model whose result has the same text field but different other
fields (a segment count instead of a language). -/
def richModelB : WhisperModel :=
  ⟨fun _ => Except.ok
    [("text", PyValue.str "hi"), ("segments", PyValue.int 3)]⟩

/-- A stub module yielding richModelA. -/
def richWhisperA : WhisperModule := ⟨fun _ => Except.ok richModelA⟩

/-- A stub module yielding richModelB. -/
def richWhisperB : WhisperModule := ⟨fun _ => Except.ok richModelB⟩

/-- A stub model whose result lacks a text field. -/
def textlessModel : WhisperModel :=
  ⟨fun _ => Except.ok [("language", PyValue.str "en")]⟩

/-- A stub module yielding textlessModel. -/
def textlessWhisper : WhisperModule := ⟨fun _ => Except.ok textlessModel⟩

/-- Claim C1: when the capability is available, an audio path is supplied,
and transcription succeeds with a result whose text field is the string t,
the program writes exactly t followed by a single newline to standard
output and terminates with status 0. -/
theorem success_prints_transcript_text
    (whisper : WhisperModule) (prog audioPath : String) (rest : List String)
    (model : WhisperModel) (result : PyDict) (t : String)
    (hload : whisper.load_model "base" = Except.ok model)
    (htr : model.transcribe audioPath = Except.ok result)
    (htext : result.lookup "text" = some (PyValue.str t)) :
    stdoutOf (runTrace (some whisper) (prog :: audioPath :: rest)) =
      t ++ "\n" ∧
    exitCodeOf (runTrace (some whisper) (prog :: audioPath :: rest)) = 0 := by
  simp [runTrace, hload, htr, htext, stdoutOf, exitCodeOf, pyStr]

/-- Witness for C1 at a concrete stub capability and argv. -/
theorem success_prints_transcript_text_witness :
    stdoutOf (runTrace (some stubWhisper)
        ["whisper_transcribe.py", "audio.wav"]) = "hello world" ++ "\n" ∧
    exitCodeOf (runTrace (some stubWhisper)
        ["whisper_transcribe.py", "audio.wav"]) = 0 :=
  success_prints_transcript_text stubWhisper "whisper_transcribe.py"
    "audio.wav" [] stubModel [("text", PyValue.str "hello world")]
    "hello world" rfl rfl (by decide)

/-- Claim C2: with the capability available but no argument beyond the
program name, the program writes the usage message to standard error,
nothing to standard output, and exits with status 1. -/
theorem missing_argument_usage_error
    (whisper : WhisperModule) (prog : String) :
    stderrOf (runTrace (some whisper) [prog]) = usageMsg ++ "\n" ∧
    stdoutOf (runTrace (some whisper) [prog]) = "" ∧
    exitCodeOf (runTrace (some whisper) [prog]) = 1 := by
  simp [runTrace, stderrOf, stdoutOf, exitCodeOf]

/-- Witness for C2 at a concrete capability and program name. -/
theorem missing_argument_usage_error_witness :
    stderrOf (runTrace (some stubWhisper) ["whisper_transcribe.py"]) =
      usageMsg ++ "\n" ∧
    stdoutOf (runTrace (some stubWhisper) ["whisper_transcribe.py"]) = "" ∧
    exitCodeOf (runTrace (some stubWhisper) ["whisper_transcribe.py"]) = 1 :=
  missing_argument_usage_error stubWhisper "whisper_transcribe.py"

/-- Claim C3: when the whisper import fails, whatever the arguments, the
whole trace is the remediation message on standard error followed by exit 1:
the remediation names what to install, standard output stays empty, the
status is 1, and no argument check, model load, or transcribe is attempted
(the trace holds no other event). -/
theorem missing_dependency_remediation (argv : List String) :
    runTrace none argv =
      [Event.errWrite (whisperMissingMsg ++ "\n"), Event.exit 1] ∧
    stderrOf (runTrace none argv) = whisperMissingMsg ++ "\n" ∧
    stdoutOf (runTrace none argv) = "" ∧
    exitCodeOf (runTrace none argv) = 1 := by
  simp [runTrace, stderrOf, stdoutOf, exitCodeOf]

/-- Witness for C3 at a concrete argument list. -/
theorem missing_dependency_remediation_witness :
    runTrace none ["whisper_transcribe.py", "audio.wav"] =
      [Event.errWrite (whisperMissingMsg ++ "\n"), Event.exit 1] ∧
    stderrOf (runTrace none ["whisper_transcribe.py", "audio.wav"]) =
      whisperMissingMsg ++ "\n" ∧
    stdoutOf (runTrace none ["whisper_transcribe.py", "audio.wav"]) = "" ∧
    exitCodeOf (runTrace none ["whisper_transcribe.py", "audio.wav"]) = 1 :=
  missing_dependency_remediation ["whisper_transcribe.py", "audio.wav"]

/-- Claim C4: when load_model or transcribe raises an error e, the script
neither catches nor translates it: the run ends in that uncaught fault, the
status is 1 (nonzero), nothing reaches standard output, and the diagnostic
on standard error is exactly that of e. -/
theorem uncaught_capability_error_propagates
    (whisper : WhisperModule) (prog audioPath : String) (rest : List String)
    (e : PyError)
    (h : whisper.load_model "base" = Except.error e ∨
      ∃ model, whisper.load_model "base" = Except.ok model ∧
        model.transcribe audioPath = Except.error e) :
    exitCodeOf (runTrace (some whisper) (prog :: audioPath :: rest)) = 1 ∧
    stdoutOf (runTrace (some whisper) (prog :: audioPath :: rest)) = "" ∧
    stderrOf (runTrace (some whisper) (prog :: audioPath :: rest)) =
      tracebackOf e := by
  rcases h with hload | ⟨model, hload, htr⟩
  · simp [runTrace, hload, exitCodeOf, stdoutOf, stderrOf]
  · simp [runTrace, hload, htr, exitCodeOf, stdoutOf, stderrOf]

/-- Witness for C4 at a stub capability raising during transcription. -/
theorem uncaught_capability_error_propagates_witness :
    exitCodeOf (runTrace (some failingWhisper)
      ["whisper_transcribe.py", "audio.wav"]) = 1 ∧
    stdoutOf (runTrace (some failingWhisper)
      ["whisper_transcribe.py", "audio.wav"]) = "" ∧
    stderrOf (runTrace (some failingWhisper)
      ["whisper_transcribe.py", "audio.wav"]) =
      tracebackOf (PyError.runtimeError "unsupported format") :=
  uncaught_capability_error_propagates failingWhisper
    "whisper_transcribe.py" "audio.wav" []
    (PyError.runtimeError "unsupported format")
    (Or.inr ⟨failingModel, rfl, rfl⟩)

/-- Claim C5: on every run the only tier label ever passed to load_model is
the constant "base", and for any two runs that differ only in the audio
path (and trailing arguments) the sequence of requested tier labels is
identical. -/
theorem model_tier_label_is_constant
    (whisperMod : Option WhisperModule) (argv : List String) :
    ((loadNamesOf (runTrace whisperMod argv)).all fun n => n == "base") =
      true ∧
    ∀ prog a b : String, ∀ restA restB : List String,
      loadNamesOf (runTrace whisperMod (prog :: a :: restA)) =
        loadNamesOf (runTrace whisperMod (prog :: b :: restB)) := by
  have key : ∀ w : WhisperModule, ∀ p q : String, ∀ r : List String,
      loadNamesOf (runTrace (some w) (p :: q :: r)) = ["base"] := by
    intro w p q r
    cases hl : w.load_model "base" with
    | error e => simp [runTrace, hl, loadNamesOf]
    | ok model =>
      cases ht : model.transcribe q with
      | error e => simp [runTrace, hl, ht, loadNamesOf]
      | ok result =>
        cases hres : result.lookup "text" with
        | none => simp [runTrace, hl, ht, hres, loadNamesOf]
        | some v => simp [runTrace, hl, ht, hres, loadNamesOf]
  constructor
  · cases whisperMod with
    | none => simp [runTrace, loadNamesOf]
    | some w =>
      match argv with
      | [] => simp [runTrace, loadNamesOf]
      | [p] => simp [runTrace, loadNamesOf]
      | p :: q :: r => rw [key w p q r]; decide
  · intro prog a b restA restB
    cases whisperMod with
    | none => rfl
    | some w => rw [key w prog a restA, key w prog b restB]

/-- Witness for C5 at a concrete capability and two argument vectors. -/
theorem model_tier_label_is_constant_witness :
    ((loadNamesOf (runTrace (some stubWhisper)
        ["whisper_transcribe.py", "a.wav"])).all fun n => n == "base") =
      true ∧
    loadNamesOf (runTrace (some stubWhisper)
        ["whisper_transcribe.py", "a.wav"]) =
      loadNamesOf (runTrace (some stubWhisper)
        ["whisper_transcribe.py", "b.wav"]) := by
  have h := model_tier_label_is_constant (some stubWhisper)
    ["whisper_transcribe.py", "a.wav"]
  exact ⟨h.1, h.2 "whisper_transcribe.py" "a.wav" "b.wav" [] []⟩

/-- Claim C6: no run writes to standard output before the transcribe call:
scanning any trace, no outWrite event precedes the transcribe event (events
after the transcribe event are computed from its returned value, so the
single stdout write happens strictly after the call completes). -/
theorem no_stdout_before_transcription
    (whisperMod : Option WhisperModule) (argv : List String) :
    stdoutSilentUntilTranscribe (runTrace whisperMod argv) = true := by
  cases whisperMod with
  | none => simp [runTrace, stdoutSilentUntilTranscribe]
  | some w =>
    match argv with
    | [] => simp [runTrace, stdoutSilentUntilTranscribe]
    | [p] => simp [runTrace, stdoutSilentUntilTranscribe]
    | p :: q :: r =>
      cases hl : w.load_model "base" with
      | error e => simp [runTrace, hl, stdoutSilentUntilTranscribe]
      | ok model => simp [runTrace, hl, stdoutSilentUntilTranscribe]

/-- Claim C7: two runs whose transcription results carry equal text fields
produce identical standard output and identical exit status, however the
results differ in their other fields. -/
theorem only_text_field_is_consumed
    (whisperA whisperB : WhisperModule)
    (progA progB pathA pathB : String) (restA restB : List String)
    (modelA modelB : WhisperModel) (resultA resultB : PyDict)
    (hlA : whisperA.load_model "base" = Except.ok modelA)
    (htA : modelA.transcribe pathA = Except.ok resultA)
    (hlB : whisperB.load_model "base" = Except.ok modelB)
    (htB : modelB.transcribe pathB = Except.ok resultB)
    (heq : resultA.lookup "text" = resultB.lookup "text") :
    stdoutOf (runTrace (some whisperA) (progA :: pathA :: restA)) =
      stdoutOf (runTrace (some whisperB) (progB :: pathB :: restB)) ∧
    exitCodeOf (runTrace (some whisperA) (progA :: pathA :: restA)) =
      exitCodeOf (runTrace (some whisperB) (progB :: pathB :: restB)) := by
  cases hres : resultB.lookup "text" with
  | none =>
    rw [hres] at heq
    simp [runTrace, hlA, htA, hlB, htB, heq, hres, stdoutOf, exitCodeOf]
  | some v =>
    rw [hres] at heq
    simp [runTrace, hlA, htA, hlB, htB, heq, hres, stdoutOf, exitCodeOf]

/-- Witness for C7 at two stub capabilities whose results share the text
field "hi" but differ in every other field. -/
theorem only_text_field_is_consumed_witness :
    stdoutOf (runTrace (some richWhisperA)
        ["whisper_transcribe.py", "a.wav"]) =
      stdoutOf (runTrace (some richWhisperB)
        ["whisper_transcribe.py", "b.wav"]) ∧
    exitCodeOf (runTrace (some richWhisperA)
        ["whisper_transcribe.py", "a.wav"]) =
      exitCodeOf (runTrace (some richWhisperB)
        ["whisper_transcribe.py", "b.wav"]) :=
  only_text_field_is_consumed richWhisperA richWhisperB
    "whisper_transcribe.py" "whisper_transcribe.py" "a.wav" "b.wav" [] []
    richModelA richModelB
    [("text", PyValue.str "hi"), ("language", PyValue.str "en")]
    [("text", PyValue.str "hi"), ("segments", PyValue.int 3)]
    rfl rfl rfl rfl (by decide)

/-- Claim C8: no run reads an environment variable or writes persistent
state: every event of every trace is free of ambient-state effects, leaving
the argument list and the capability as the only inputs and the trace
events (stdout, stderr, exit status) as the only outputs. -/
theorem no_environment_or_persistent_effects
    (whisperMod : Option WhisperModule) (argv : List String) :
    ((runTrace whisperMod argv).all fun e => ! e.touchesAmbientState) =
      true := by
  cases whisperMod with
  | none => simp [runTrace, Event.touchesAmbientState]
  | some w =>
    match argv with
    | [] => simp [runTrace, Event.touchesAmbientState]
    | [p] => simp [runTrace, Event.touchesAmbientState]
    | p :: q :: r =>
      cases hl : w.load_model "base" with
      | error e => simp [runTrace, hl, Event.touchesAmbientState]
      | ok model =>
        cases ht : model.transcribe q with
        | error e => simp [runTrace, hl, ht, Event.touchesAmbientState]
        | ok result =>
          cases hres : result.lookup "text" with
          | none =>
            simp [runTrace, hl, ht, hres, Event.touchesAmbientState]
          | some v =>
            simp [runTrace, hl, ht, hres, Event.touchesAmbientState]

/-- Claim C9: supplying extra arguments beyond the first changes nothing:
the trace with two or more arguments after the program name equals the
trace with only the first of them, so the guard accepts any count of at
least one, only the first argument reaches transcribe, and the rest are
silently ignored. -/
theorem extra_arguments_are_ignored
    (whisperMod : Option WhisperModule) (prog audioPath extra : String)
    (rest : List String) :
    runTrace whisperMod (prog :: audioPath :: extra :: rest) =
      runTrace whisperMod [prog, audioPath] := by
  cases whisperMod with
  | none => rfl
  | some w => rfl

/-- Witness for C9 at a concrete capability and argument vector. -/
theorem extra_arguments_are_ignored_witness :
    runTrace (some stubWhisper)
        ["whisper_transcribe.py", "a.wav", "b.wav", "-v"] =
      runTrace (some stubWhisper) ["whisper_transcribe.py", "a.wav"] :=
  extra_arguments_are_ignored (some stubWhisper) "whisper_transcribe.py"
    "a.wav" "b.wav" ["-v"]

/-- Claim C10: when transcription succeeds but the result has no text
field, the lookup raises an uncaught KeyError: the status is 1 (nonzero),
nothing is written to standard output (no default or empty transcript), and
the KeyError diagnostic lands on standard error. -/
theorem missing_text_field_faults
    (whisper : WhisperModule) (prog audioPath : String) (rest : List String)
    (model : WhisperModel) (result : PyDict)
    (hload : whisper.load_model "base" = Except.ok model)
    (htr : model.transcribe audioPath = Except.ok result)
    (hmiss : result.lookup "text" = none) :
    exitCodeOf (runTrace (some whisper) (prog :: audioPath :: rest)) = 1 ∧
    stdoutOf (runTrace (some whisper) (prog :: audioPath :: rest)) = "" ∧
    stderrOf (runTrace (some whisper) (prog :: audioPath :: rest)) =
      tracebackOf (PyError.keyError "text") := by
  simp [runTrace, hload, htr, hmiss, exitCodeOf, stdoutOf, stderrOf]

/-- Witness for C10 at a stub capability whose result lacks a text field. -/
theorem missing_text_field_faults_witness :
    exitCodeOf (runTrace (some textlessWhisper)
      ["whisper_transcribe.py", "audio.wav"]) = 1 ∧
    stdoutOf (runTrace (some textlessWhisper)
      ["whisper_transcribe.py", "audio.wav"]) = "" ∧
    stderrOf (runTrace (some textlessWhisper)
      ["whisper_transcribe.py", "audio.wav"]) =
      tracebackOf (PyError.keyError "text") :=
  missing_text_field_faults textlessWhisper "whisper_transcribe.py"
    "audio.wav" [] textlessModel [("language", PyValue.str "en")]
    rfl rfl (by decide)

/-- Witness for C6 at a concrete capability and argument vector. -/
theorem no_stdout_before_transcription_witness :
    stdoutSilentUntilTranscribe (runTrace (some stubWhisper)
      ["whisper_transcribe.py", "audio.wav"]) = true :=
  no_stdout_before_transcription (some stubWhisper)
    ["whisper_transcribe.py", "audio.wav"]

/-- Witness for C8 at a concrete capability and argument vector. -/
theorem no_environment_or_persistent_effects_witness :
    ((runTrace (some stubWhisper)
      ["whisper_transcribe.py", "audio.wav"]).all
        fun e => ! e.touchesAmbientState) = true :=
  no_environment_or_persistent_effects (some stubWhisper)
    ["whisper_transcribe.py", "audio.wav"]
